import Mathlib

/-!
Shallow embedding of the scan-processing core of `src/providers/rplidar_provider.py`
(class `RPLidarProvider`): coordinate transform, corridor pruning and movement
classification, together with theorems checking the claims of the specification.

Real-number quantities (angles, distances, corridor sample points) are modelled
over `ℚ`; the two transcendental ingredients of the source — `math.cos`/`math.sin`
applied to `a_rad = (angle + 180)·π/180` — are abstracted as function parameters
`cosf sinf : ℚ → ℚ` taking the degree value `angle + 180`, with their exact values
supplied as hypotheses where a claim needs them.  The square-root distance test is
replaced by its exact square-free equivalent (proved to coincide with the real
`Real.sqrt` form in `violates_path_iff_sqrt`).
-/

namespace RPLidar

/-- Robot and sensor configuration, the constructor parameters of
`RPLidarProvider.__init__` that the processing pipeline reads; all fields are
fixed at construction. -/
structure Config where
  half_width_robot : ℚ
  angles_blanked : List (ℚ × ℚ)
  max_relevant_distance : ℚ
  sensor_mounting_angle : ℚ
  use_zenoh : Bool
  simple_paths : Bool
deriving Repr, DecidableEq

/-- One transformed scan point, the row `[x, y, angle, d_m]` appended to
`complexes` in `_transform_coordinates`. -/
structure TPoint where
  x : ℚ
  y : ℚ
  angle : ℚ
  d_m : ℚ
deriving Repr, DecidableEq

/-- The cycle result published at the end of `_process` (and by
`_preprocess_zenoh` when no scan has arrived): `_raw_scan`, `_lidar_string`,
`_valid_paths`. -/
structure Snapshot where
  raw_scan : List TPoint
  lidar_string : String
  valid_paths : List Nat
deriving Repr, DecidableEq

/-- Control points of the ten quadratic Bezier curves of `_init_path_planning`:
each entry is (start, mid, end) of
`bezier.Curve(np.asfortranarray([[x0, x1, x2], [y0, y1, y2]]), degree=2)`. -/
def curves : List ((ℚ × ℚ) × (ℚ × ℚ) × (ℚ × ℚ)) :=
  [ ((0, 0), (-3/10, 1/2), (-3/4, 2/5)),
    ((0, 0), (-3/10, 3/5), (-7/10, 7/10)),
    ((0, 0), (-1/5, 7/10), (-3/5, 9/10)),
    ((0, 0), (-1/10, 7/10), (-7/20, 103/100)),
    ((0, 0), (0, 1/2), (0, 21/20)),
    ((0, 0), (1/10, 7/10), (7/20, 103/100)),
    ((0, 0), (1/5, 7/10), (3/5, 9/10)),
    ((0, 0), (3/10, 3/5), (7/10, 7/10)),
    ((0, 0), (3/10, 1/2), (3/4, 2/5)),
    ((0, 0), (0, -1/2), (0, -21/20)) ]

/-- Evaluation of a degree-2 Bezier curve at parameter `t`, as
`bezier.Curve.evaluate_multi` computes it:
`B(t) = (1-t)² P0 + 2 t (1-t) P1 + t² P2`. -/
def bezier_point (P : (ℚ × ℚ) × (ℚ × ℚ) × (ℚ × ℚ)) (t : ℚ) : ℚ × ℚ :=
  ((1 - t)^2 * P.1.1 + 2 * t * (1 - t) * P.2.1.1 + t^2 * P.2.2.1,
   (1 - t)^2 * P.1.2 + 2 * t * (1 - t) * P.2.1.2 + t^2 * P.2.2.2)

/-- Model of `self.s_vals = np.linspace(0.0, 1.0, 10)`: the parameters k/9, k = 0..9. -/
def s_vals : List ℚ := (List.range 10).map (fun k => (k : ℚ) / 9)

/-- Model of `self.pp[c]`: the 10 sample points of corridor `c` (out-of-range
ids, which never occur, get a degenerate all-origin curve). -/
def pp (c : Nat) : List (ℚ × ℚ) :=
  s_vals.map (bezier_point (curves.getD c ((0, 0), (0, 0), (0, 0))))

/-- The wrap of `angle + sensor_mounting_angle` into [0, 360) performed in
`_transform_coordinates` (a single correction step, as in the source). -/
def wrap_angle (angle : ℚ) : ℚ :=
  if angle ≥ 360 then angle - 360 else if angle < 0 then 360 + angle else angle

/-- The robot-frame angle of a reading: wrap into [0, 360), then shift by
`- 180.0` into [-180, +180). -/
def robot_angle (cfg : Config) (angle : ℚ) : ℚ :=
  wrap_angle (angle + cfg.sensor_mounting_angle) - 180

/-- The per-reading body of `_transform_coordinates`.  `none` means the reading
is discarded (too far, or inside a blanked range — both range ends inclusive,
`angle >= b[0] and angle <= b[1]`).  `cosf`/`sinf` stand for
`math.cos((θ)·π/180)` and `math.sin((θ)·π/180)` at the degree value
`θ = angle + 180` (the source forms `a_rad = (angle + 180.0) * math.pi / 180.0`). -/
def transform_reading (cfg : Config) (cosf sinf : ℚ → ℚ) (r : ℚ × ℚ) :
    Option TPoint :=
  let d_m := r.2
  if d_m > cfg.max_relevant_distance then none
  else
    let angle := robot_angle cfg r.1
    if cfg.angles_blanked.any (fun b => decide (angle ≥ b.1 ∧ angle ≤ b.2)) then
      none
    else
      let v1 := d_m * cosf (angle + 180)
      let v2 := d_m * sinf (angle + 180)
      some ⟨(-1) * v2, (-1) * v1, angle, d_m⟩

/-- Model of `_transform_coordinates`: transform a raw batch, dropping
discarded readings. -/
def transform_coordinates (cfg : Config) (cosf sinf : ℚ → ℚ)
    (data : List (ℚ × ℚ)) : List TPoint :=
  data.filterMap (transform_reading cfg cosf sinf)

/-- The corridor-collision test of `_process` for one scan point `(x, y)`
against the samples of one corridor.  The source computes
`dist = math.sqrt(p1*p1 + p2*p2)` and tests `dist < half_width_robot`; over `ℚ`
we use the exact equivalent `0 < hw ∧ p1² + p2² < hw²`
(`violates_path_iff_sqrt` proves the two forms agree over `ℝ`).  `List.any`
short-circuits exactly like the `break` in the source after the first violating
sample. -/
def violates_path (hw : ℚ) (x y : ℚ) (samples : List (ℚ × ℚ)) : Bool :=
  samples.any (fun point =>
    let p1 := x - point.1
    let p2 := y - point.2
    decide (0 < hw ∧ p1 * p1 + p2 * p2 < hw * hw))

/-- Effect of one scan point on the candidate set in `_process`.  The Python
`for apath in possible_paths` loop iterates over the array as it stood when the
loop for this point began; each violated corridor is removed with `np.setdiff1d`
(which keeps the list sorted and duplicate-free, as the initial list is), so one
point maps the candidate list `S` to the sublist of corridors it does not
violate. -/
def prune_point (hw : ℚ) (S : List Nat) (x y : ℚ) : List Nat :=
  S.filter (fun apath => ! violates_path hw x y (pp apath))

/-- The full pruning pass of `_process` over the (sorted) transformed points. -/
def prune_paths (hw : ℚ) (S : List Nat) (pts : List TPoint) : List Nat :=
  pts.foldl (fun S p => prune_point hw S p.x p.y) S

/-- Model of `_categorize_paths`: bucket the surviving ids through the if/elif
chain and also return the id list itself (`ppl`). -/
def categorize_paths (ppl : List Nat) :
    List Nat × List Nat × List Nat × List Nat × List Nat :=
  (ppl.filter (fun p => decide (p < 4)),
   ppl.filter (fun p => ! decide (p < 4) && decide (p = 4)),
   ppl.filter (fun p => ! decide (p < 4) && ! decide (p = 4) && decide (p < 9)),
   ppl.filter (fun p =>
     ! decide (p < 4) && ! decide (p = 4) && ! decide (p < 9) && decide (p = 9)),
   ppl)

/-- The fixed message returned by `_generate_movement_string` when no path
survives. -/
def surrounded_string : String :=
  "You are surrounded by objects and cannot safely move in any direction. DO NOT MOVE."

/-- The message `_preprocess_zenoh` publishes when no scan has ever arrived
(note the differing wording: might be). -/
def might_be_surrounded_string : String :=
  "You might be surrounded by objects and cannot safely move in any direction. DO NOT MOVE."

/-- Model of `_generate_movement_string`: render the safe directions.  The
repertoire branches on `use_zenoh` (TurtleBot4), not on `simple_paths`. -/
def generate_movement_string (cfg : Config)
    (turn_left advance turn_right retreat ppl : List Nat) : String :=
  if ppl.length = 0 then
    surrounded_string
  else
    let s := "The safe movement directions are: \x7b"
    let s :=
      if cfg.use_zenoh then
        if 0 < advance.length then
          s ++ "\x27turn left\x27, \x27turn right\x27, \x27move forwards\x27, "
        else
          s ++ "\x27turn left\x27, \x27turn right\x27, "
      else
        let s := if 0 < turn_left.length then s ++ "\x27turn left\x27, " else s
        let s := if 0 < advance.length then s ++ "\x27move forwards\x27, " else s
        let s := if 0 < turn_right.length then s ++ "\x27turn right\x27, " else s
        if 0 < retreat.length then s ++ "\x27move back\x27, " else s
    s ++ "\x27stand still\x27\x7d. "

/-- The starting candidate set of `_process`: all ten corridors, or only the
advance corridor when `simple_paths` is set. -/
def start_paths (cfg : Config) : List Nat :=
  if cfg.simple_paths then [4] else [0, 1, 2, 3, 4, 5, 6, 7, 8, 9]

/-- The sort by robot-frame angle in `_process` (`array[:, 2].argsort()`), a
comparison sort keyed on the angle column; no published claim depends on the
relative order of equal-angle points. -/
def sort_by_angle (array : List TPoint) : List TPoint :=
  List.insertionSort (fun a b => a.angle ≤ b.angle) array

/-- Composition of `_categorize_paths` and `_generate_movement_string` as
called at the end of `_process` (lines 365 and 366). -/
def classify_string (cfg : Config) (possible_paths : List Nat) : String :=
  match categorize_paths possible_paths with
  | (turn_left, advance, turn_right, retreat, ppl) =>
    generate_movement_string cfg turn_left advance turn_right retreat ppl

/-- Everything `_process` does after line 333 computed `array`: sort by
robot-frame angle, prune, categorize, and assemble the published snapshot.
When the transformed array is empty the `array.ndim > 1` test of the source
fails (`np.array([])` has ndim 1), so sorting and pruning are skipped.  The
5th component `ppl` returned by `_categorize_paths` is the candidate list
itself, published as `_valid_paths`. -/
def process_points (cfg : Config) (array : List TPoint) : Snapshot :=
  let possible_paths := start_paths cfg
  let res :=
    if array.isEmpty then (array, possible_paths)
    else
      let sorted := sort_by_angle array
      (sorted, prune_paths cfg.half_width_robot possible_paths sorted)
  { raw_scan := res.1,
    lidar_string := classify_string cfg res.2,
    valid_paths := res.2 }

/-- Model of `_process`: transform the raw batch, then sort, prune, categorize
and publish. -/
def process (cfg : Config) (cosf sinf : ℚ → ℚ) (data : List (ℚ × ℚ)) :
    Snapshot :=
  process_points cfg (transform_coordinates cfg cosf sinf data)

/-- The no-data branch of `_preprocess_zenoh` (`scan is None`): publish an
empty scan, the might-be-surrounded message, and no valid path. -/
def preprocess_zenoh_none : Snapshot :=
  { raw_scan := [],
    lidar_string := might_be_surrounded_string,
    valid_paths := [] }

/-- The constructor defaults of `RPLidarProvider.__init__`:
`half_width_robot = 0.20`, `angles_blanked = []`, `max_relevant_distance = 1.1`,
`sensor_mounting_angle = 180.0`, `use_zenoh = False`, `simple_paths = False`. -/
def default_config : Config := ⟨1/5, [], 11/10, 180, false, false⟩

/-- Default configuration with `simple_paths = True` but `use_zenoh = False`:
the candidate set is restricted to the advance corridor while the movement
string still uses the general (serial) repertoire. -/
def restricted_serial_config : Config := ⟨1/5, [], 11/10, 180, false, true⟩

/-- TurtleBot4 configuration: `use_zenoh = True` and `simple_paths = True`. -/
def zenoh_restricted_config : Config := ⟨1/5, [], 11/10, 180, true, true⟩

/-- Default configuration with one blanked range [-10, 10] degrees. -/
def blanked_config : Config := ⟨1/5, [(-10, 10)], 11/10, 180, false, false⟩

/-- Stub for the trigonometric parameters in cycles where their values are
irrelevant (no reading survives the transform). -/
def zero_fun : ℚ → ℚ := fun _ => 0

/-- Scenario batch of C6: one reading at sensor angle 180 degrees, distance
0.5 m. -/
def scenario_reading : List (ℚ × ℚ) := [(180, 1/2)]

/-- Concrete value of the cosine parameter for the C6 scenario: the single
surviving reading has robot-frame angle -180, so the cosine is evaluated only
at degree argument 0, where the real cosine is exactly 1. -/
def cos_stub : ℚ → ℚ := fun _ => 1

/-- Concrete value of the sine parameter for the C6 scenario: evaluated only
at degree argument 0, where the real sine is exactly 0. -/
def sin_stub : ℚ → ℚ := fun _ => 0

/-- Batch with one reading 1 cm behind the robot center (sensor angle 180
degrees, distance 0.01 m), used to exhibit a point closer to the origin than
`half_width_robot`. -/
def origin_reading : List (ℚ × ℚ) := [(180, 1/100)]

/-- The transformed point produced by `origin_reading` under the default
configuration with the exact trigonometric values at degree argument 0. -/
def origin_point : TPoint := ⟨0, -(1/100), -180, 1/100⟩

section

/- Batteries marks the arithmetic on `Rat` `@[irreducible]`; reducibility is
restored locally so that concrete corridor geometry can be evaluated by
`decide`. -/
attribute [local semireducible] Rat.mul Rat.add Rat.sub Rat.inv

/-- Exact equivalence between the squared comparison used in the embedding and
the square-root comparison `math.sqrt(p1*p1 + p2*p2) < half_width_robot`
computed by the source. -/
theorem sq_sum_lt_iff_sqrt_lt (a b c : ℚ) :
    (0 < c ∧ a * a + b * b < c * c) ↔
      Real.sqrt ((a : ℝ) ^ 2 + (b : ℝ) ^ 2) < (c : ℝ) := by
  constructor
  · rintro ⟨hc, h⟩
    have hc' : (0 : ℝ) < (c : ℝ) := by exact_mod_cast hc
    rw [Real.sqrt_lt' hc']
    have h' : ((a : ℝ)) * a + b * b < c * c := by exact_mod_cast h
    nlinarith [h']
  · intro h
    have hc' : (0 : ℝ) < (c : ℝ) := lt_of_le_of_lt (Real.sqrt_nonneg _) h
    have hc : 0 < c := by exact_mod_cast hc'
    rw [Real.sqrt_lt' hc'] at h
    refine ⟨hc, ?_⟩
    have h2 : ((a : ℝ)) * a + b * b < c * c := by nlinarith [h]
    exact_mod_cast h2

/-- The boolean collision test agrees with the Euclidean-distance phrasing of
the specification. -/
theorem violates_path_iff_sqrt (hw x y : ℚ) (samples : List (ℚ × ℚ)) :
    violates_path hw x y samples = true ↔
      ∃ s ∈ samples,
        Real.sqrt (((x : ℝ) - s.1) ^ 2 + ((y : ℝ) - s.2) ^ 2) < (hw : ℝ) := by
  unfold violates_path
  simp only [List.any_eq_true, decide_eq_true_eq]
  constructor
  · rintro ⟨s, hs, h⟩
    refine ⟨s, hs, ?_⟩
    have h2 := (sq_sum_lt_iff_sqrt_lt (x - s.1) (y - s.2) hw).mp h
    convert h2 using 3 <;> push_cast <;> ring
  · rintro ⟨s, hs, h⟩
    refine ⟨s, hs, ?_⟩
    apply (sq_sum_lt_iff_sqrt_lt (x - s.1) (y - s.2) hw).mpr
    convert h using 3 <;> push_cast <;> ring

/-- The pruning pass equals one filter of the starting candidate list: a
corridor survives iff no transformed point violates it. -/
theorem prune_paths_eq_filter (hw : ℚ) (S : List Nat) (pts : List TPoint) :
    prune_paths hw S pts =
      S.filter (fun c => ! pts.any (fun p => violates_path hw p.x p.y (pp c))) := by
  induction pts generalizing S with
  | nil => simp [prune_paths]
  | cons p ps ih =>
      have hstep : prune_paths hw S (p :: ps) =
          prune_paths hw (prune_point hw S p.x p.y) ps := rfl
      rw [hstep, ih, prune_point, List.filter_filter]
      congr 1
      funext c
      simp [Bool.not_or, Bool.and_comm]

/-- Pruning only shrinks the candidate list (it is a sublist of the start). -/
theorem prune_paths_sublist (hw : ℚ) (S : List Nat) (pts : List TPoint) :
    (prune_paths hw S pts).Sublist S := by
  rw [prune_paths_eq_filter]
  exact List.filter_sublist S

/-- A corridor in the starting set is removed by the pruning pass iff some
transformed point comes closer than `half_width_robot` to one of its sample
points. -/
theorem not_mem_prune_paths_iff (hw : ℚ) (S : List Nat) (pts : List TPoint)
    (c : Nat) (hc : c ∈ S) :
    c ∉ prune_paths hw S pts ↔
      ∃ p ∈ pts, ∃ s ∈ pp c,
        Real.sqrt (((p.x : ℝ) - s.1) ^ 2 + ((p.y : ℝ) - s.2) ^ 2) < (hw : ℝ) := by
  rw [prune_paths_eq_filter]
  simp [List.mem_filter, hc, List.any_eq_true, violates_path_iff_sqrt]

/-- C1: for every finite sequence of transformed points and every starting
candidate set `S`, the pruning pass removes corridor `c` from `S` iff at least
one transformed point lies at Euclidean distance strictly less than
`half_width_robot` from at least one of the 10 precomputed sample points of
`c`; in particular for corridor 4 starting from the full set. -/
theorem claim1_prune_removes_iff (hw : ℚ) (pts : List TPoint) (S : List Nat)
    (c : Nat) (hc : c ∈ S) :
    (c ∉ prune_paths hw S pts ↔
      ∃ p ∈ pts, ∃ s ∈ pp c,
        Real.sqrt (((p.x : ℝ) - s.1) ^ 2 + ((p.y : ℝ) - s.2) ^ 2) < (hw : ℝ)) ∧
    (4 ∉ prune_paths hw [0, 1, 2, 3, 4, 5, 6, 7, 8, 9] pts ↔
      ∃ p ∈ pts, ∃ s ∈ pp 4,
        Real.sqrt (((p.x : ℝ) - s.1) ^ 2 + ((p.y : ℝ) - s.2) ^ 2) < (hw : ℝ)) :=
  ⟨not_mem_prune_paths_iff hw S pts c hc,
   not_mem_prune_paths_iff hw _ pts 4 (by decide)⟩

/-- Witness for C1 at a concrete input: corridor 4, the full starting set, and
a single scan point straight behind the robot. -/
theorem claim1_witness :
    (4 ∉ prune_paths (1/5) [0, 1, 2, 3, 4, 5, 6, 7, 8, 9]
        [⟨0, -(1/2), -180, 1/2⟩] ↔
      ∃ p ∈ [(⟨0, -(1/2), -180, 1/2⟩ : TPoint)], ∃ s ∈ pp 4,
        Real.sqrt (((p.x : ℝ) - s.1) ^ 2 + ((p.y : ℝ) - s.2) ^ 2) <
          ((1/5 : ℚ) : ℝ)) ∧
    (4 ∉ prune_paths (1/5) [0, 1, 2, 3, 4, 5, 6, 7, 8, 9]
        [⟨0, -(1/2), -180, 1/2⟩] ↔
      ∃ p ∈ [(⟨0, -(1/2), -180, 1/2⟩ : TPoint)], ∃ s ∈ pp 4,
        Real.sqrt (((p.x : ℝ) - s.1) ^ 2 + ((p.y : ℝ) - s.2) ^ 2) <
          ((1/5 : ℚ) : ℝ)) :=
  claim1_prune_removes_iff (1/5) [⟨0, -(1/2), -180, 1/2⟩]
    [0, 1, 2, 3, 4, 5, 6, 7, 8, 9] 4 (by decide)

/-- Component equations of `process_points` (published candidate list, string
and scan for each branch of the emptiness test). -/
theorem process_points_components (cfg : Config) (array : List TPoint) :
    (process_points cfg array).valid_paths =
      (if array.isEmpty then start_paths cfg
       else prune_paths cfg.half_width_robot (start_paths cfg)
         (sort_by_angle array)) ∧
    (process_points cfg array).lidar_string =
      classify_string cfg (process_points cfg array).valid_paths ∧
    (process_points cfg array).raw_scan =
      (if array.isEmpty then array else sort_by_angle array) := by
  unfold process_points
  split <;> exact ⟨rfl, rfl, rfl⟩

/-- The published candidate list never grows beyond the starting set. -/
theorem process_valid_paths_subset_start (cfg : Config) (cosf sinf : ℚ → ℚ)
    (data : List (ℚ × ℚ)) :
    (process cfg cosf sinf data).valid_paths ⊆ start_paths cfg := by
  rw [process, (process_points_components cfg _).1]
  split
  · exact fun a ha => ha
  · exact (prune_paths_sublist _ _ _).subset

/-- C2: the published valid paths are always a subset of the corridor ids
0..9, a subset of the advance corridor alone under the restricted-motion flag,
and the candidate set only shrinks during a cycle. -/
theorem claim2_valid_paths_invariants (cfg : Config) (cosf sinf : ℚ → ℚ)
    (data : List (ℚ × ℚ)) :
    (process cfg cosf sinf data).valid_paths ⊆ [0, 1, 2, 3, 4, 5, 6, 7, 8, 9] ∧
    (cfg.simple_paths = true →
      (process cfg cosf sinf data).valid_paths ⊆ [4]) ∧
    (∀ hw S pts, (prune_paths hw S pts).Sublist S) := by
  refine ⟨?_, ?_, fun hw S pts => prune_paths_sublist hw S pts⟩
  · refine (process_valid_paths_subset_start cfg cosf sinf data).trans ?_
    unfold start_paths
    split <;> decide
  · intro hsp
    refine (process_valid_paths_subset_start cfg cosf sinf data).trans ?_
    simp [start_paths, hsp]

/-- Witness for C2 under the restricted-motion flag on an empty batch. -/
theorem claim2_witness :
    (process restricted_serial_config zero_fun zero_fun []).valid_paths ⊆
        [0, 1, 2, 3, 4, 5, 6, 7, 8, 9] ∧
    (restricted_serial_config.simple_paths = true →
      (process restricted_serial_config zero_fun zero_fun []).valid_paths ⊆
        [4]) ∧
    (∀ hw S pts, (prune_paths hw S pts).Sublist S) :=
  claim2_valid_paths_invariants restricted_serial_config zero_fun zero_fun []

/-- C3 fails on the code: a cycle whose reading batch is empty goes through
`_process`, which leaves the whole starting candidate set valid and renders
the all-directions string, not the surrounded message and not empty paths. -/
theorem claim3_counterexample :
    (process default_config zero_fun zero_fun []).raw_scan = [] ∧
    (process default_config zero_fun zero_fun []).valid_paths =
      [0, 1, 2, 3, 4, 5, 6, 7, 8, 9] ∧
    ¬ ((process default_config zero_fun zero_fun []).valid_paths = [] ∧
       (process default_config zero_fun zero_fun []).lidar_string =
         surrounded_string) := by
  refine ⟨rfl, rfl, fun h => ?_⟩
  exact absurd h.1 (by decide)

/-- C3 (amended): only the no-data cycle of the zenoh transport publishes the
conservative result, with the differing might-be-surrounded wording, while a
cycle whose batch is empty but present keeps the unchanged starting candidate
set. -/
theorem claim3_no_data_cycle :
    preprocess_zenoh_none.raw_scan = [] ∧
    preprocess_zenoh_none.valid_paths = [] ∧
    preprocess_zenoh_none.lidar_string = might_be_surrounded_string ∧
    ∀ (cfg : Config) (cosf sinf : ℚ → ℚ),
      (process cfg cosf sinf []).valid_paths = start_paths cfg := by
  exact ⟨rfl, rfl, rfl, fun cfg cosf sinf => rfl⟩

/-- C4: when the batch transforms to no points, the pruner leaves the starting
candidate set unchanged: the full set normally, only the advance corridor
under the restricted-motion flag. -/
theorem claim4_empty_transformed (cfg : Config) (cosf sinf : ℚ → ℚ)
    (data : List (ℚ × ℚ))
    (h : transform_coordinates cfg cosf sinf data = []) :
    (process cfg cosf sinf data).valid_paths =
      (if cfg.simple_paths then [4] else [0, 1, 2, 3, 4, 5, 6, 7, 8, 9]) ∧
    (∀ hw S, prune_paths hw S [] = S) := by
  constructor
  · show (process_points cfg (transform_coordinates cfg cosf sinf data)).valid_paths = _
    rw [h]
    rfl
  · intro hw S
    rfl

/-- Witness for C4 on the empty batch under the default configuration. -/
theorem claim4_witness :
    (process default_config zero_fun zero_fun []).valid_paths =
      (if default_config.simple_paths then [4]
       else [0, 1, 2, 3, 4, 5, 6, 7, 8, 9]) ∧
    (∀ hw S, prune_paths hw S [] = S) :=
  claim4_empty_transformed default_config zero_fun zero_fun [] rfl

/-- The advance bucket of `_categorize_paths` is non-empty iff corridor 4 is
among the surviving ids. -/
theorem advance_filter_pos (ppl : List Nat) :
    0 < (ppl.filter (fun p => ! decide (p < 4) && decide (p = 4))).length ↔
      4 ∈ ppl := by
  rw [List.length_pos_iff_exists_mem]
  constructor
  · rintro ⟨a, ha⟩
    rcases List.mem_filter.mp ha with ⟨hmem, hpred⟩
    have ha4 : a = 4 := by
      by_cases h4 : a = 4
      · exact h4
      · simp [h4] at hpred
    rwa [ha4] at hmem
  · intro h4
    exact ⟨4, List.mem_filter.mpr ⟨h4, by decide⟩⟩

/-- Under the zenoh transport, the rendered string of a non-empty surviving
set always lists the two turns, adds move forwards exactly when corridor 4
survives, and appends stand still. -/
theorem classify_string_zenoh (cfg : Config) (hz : cfg.use_zenoh = true)
    (ppl : List Nat) (hne : ppl ≠ []) :
    classify_string cfg ppl =
      (if 4 ∈ ppl then
        "The safe movement directions are: \x7b\x27turn left\x27, \x27turn right\x27, \x27move forwards\x27, \x27stand still\x27\x7d. "
       else
        "The safe movement directions are: \x7b\x27turn left\x27, \x27turn right\x27, \x27stand still\x27\x7d. ") := by
  unfold classify_string categorize_paths generate_movement_string
  dsimp only
  rw [if_neg (fun h => hne (List.length_eq_zero.mp h)), hz]
  by_cases hm : 4 ∈ ppl
  · rw [if_pos (advance_filter_pos ppl |>.mpr hm), if_pos hm]
    rfl
  · rw [if_neg (fun hpos => hm ((advance_filter_pos ppl).mp hpos)), if_neg hm]
    rfl

/-- C5 fails on the code: the restricted-motion flag `simple_paths` does not
select the turn-left/turn-right repertoire — that branch is keyed on
`use_zenoh`.  With `simple_paths = True` and `use_zenoh = False`, an empty
batch leaves the non-empty set `[4]`, yet the string lists neither turn. -/
theorem claim5_counterexample :
    (process restricted_serial_config zero_fun zero_fun []).valid_paths =
      [4] ∧
    (process restricted_serial_config zero_fun zero_fun []).lidar_string =
      "The safe movement directions are: \x7b\x27move forwards\x27, \x27stand still\x27\x7d. " ∧
    (process restricted_serial_config zero_fun zero_fun []).lidar_string ≠
      "The safe movement directions are: \x7b\x27turn left\x27, \x27turn right\x27, \x27move forwards\x27, \x27stand still\x27\x7d. " := by
  refine ⟨rfl, rfl, ?_⟩
  decide

/-- C5 (amended): the fixed turn-left/turn-right repertoire is selected by the
zenoh transport flag; under it a non-empty surviving set always yields the
two turns, move forwards exactly when corridor 4 survives, and stand still;
with
the corridor restriction also on, an empty batch gives `[4]` and the
four-item string. -/
theorem claim5_zenoh_repertoire (cfg : Config) (cosf sinf : ℚ → ℚ)
    (data : List (ℚ × ℚ)) (hz : cfg.use_zenoh = true) :
    ((process cfg cosf sinf data).valid_paths ≠ [] →
      (process cfg cosf sinf data).lidar_string =
        (if 4 ∈ (process cfg cosf sinf data).valid_paths then
          "The safe movement directions are: \x7b\x27turn left\x27, \x27turn right\x27, \x27move forwards\x27, \x27stand still\x27\x7d. "
         else
          "The safe movement directions are: \x7b\x27turn left\x27, \x27turn right\x27, \x27stand still\x27\x7d. ")) ∧
    (cfg.simple_paths = true →
      (process cfg cosf sinf []).valid_paths = [4] ∧
      (process cfg cosf sinf []).lidar_string =
        "The safe movement directions are: \x7b\x27turn left\x27, \x27turn right\x27, \x27move forwards\x27, \x27stand still\x27\x7d. ") := by
  constructor
  · intro hne
    rw [process, (process_points_components cfg _).2.1]
    exact classify_string_zenoh cfg hz _ hne
  · intro hsp
    have hvp : (process cfg cosf sinf []).valid_paths = [4] := by
      rw [process, (process_points_components cfg _).1]
      simp [transform_coordinates, start_paths, hsp]
    refine ⟨hvp, ?_⟩
    rw [process, (process_points_components cfg _).2.1, ← process, hvp,
      classify_string_zenoh cfg hz [4] (by decide)]
    rfl

/-- Witness for C5 on the TurtleBot4 configuration with an empty batch. -/
theorem claim5_witness :
    ((process zenoh_restricted_config zero_fun zero_fun []).valid_paths ≠ [] →
      (process zenoh_restricted_config zero_fun zero_fun []).lidar_string =
        (if 4 ∈ (process zenoh_restricted_config zero_fun zero_fun
            []).valid_paths then
          "The safe movement directions are: \x7b\x27turn left\x27, \x27turn right\x27, \x27move forwards\x27, \x27stand still\x27\x7d. "
         else
          "The safe movement directions are: \x7b\x27turn left\x27, \x27turn right\x27, \x27stand still\x27\x7d. ")) ∧
    (zenoh_restricted_config.simple_paths = true →
      (process zenoh_restricted_config zero_fun zero_fun []).valid_paths =
        [4] ∧
      (process zenoh_restricted_config zero_fun zero_fun []).lidar_string =
        "The safe movement directions are: \x7b\x27turn left\x27, \x27turn right\x27, \x27move forwards\x27, \x27stand still\x27\x7d. ") :=
  claim5_zenoh_repertoire zenoh_restricted_config zero_fun zero_fun [] rfl

/-- The single scenario reading survives the transform and lands 0.5 m behind
the robot center (robot-frame angle -180), given the exact values of cosine
and sine at degree argument 0. -/
theorem transform_reading_scenario (cosf sinf : ℚ → ℚ) (hc : cosf 0 = 1)
    (hs : sinf 0 = 0) :
    transform_reading default_config cosf sinf (180, 1/2) =
      some ⟨0, -(1/2), -180, 1/2⟩ := by
  unfold transform_reading robot_angle wrap_angle default_config
  norm_num [hc, hs]

/-- The transformed scenario batch is the single point (0, -0.5). -/
theorem transform_scenario (cosf sinf : ℚ → ℚ) (hc : cosf 0 = 1)
    (hs : sinf 0 = 0) :
    transform_coordinates default_config cosf sinf scenario_reading =
      [⟨0, -(1/2), -180, 1/2⟩] := by
  unfold transform_coordinates scenario_reading
  rw [List.filterMap_cons, transform_reading_scenario cosf sinf hc hs]
  rfl

/-- C6 fails on the code: the scenario reading at sensor angle 180 degrees and
0.5 m maps to robot-frame angle -180 (behind the robot), so the retreat
corridor 9 is pruned while the advance corridor 4 survives, and the string
does list move forwards. -/
theorem claim6_counterexample :
    4 ∈ (process default_config cos_stub sin_stub
        scenario_reading).valid_paths ∧
    9 ∉ (process default_config cos_stub sin_stub
        scenario_reading).valid_paths ∧
    (process default_config cos_stub sin_stub scenario_reading).lidar_string =
      "The safe movement directions are: \x7b\x27turn left\x27, \x27move forwards\x27, \x27turn right\x27, \x27stand still\x27\x7d. " := by
  refine ⟨by decide, by decide, by decide⟩

/-- C6 (amended): under the default configuration the scenario reading
transforms to the point (0, -0.5) at robot-frame angle -180; the retreat
corridor 9 is pruned, corridors 0..8 (advance included) survive, and the
string lists the turns and move forwards but not move back. -/
theorem claim6_scenario (cosf sinf : ℚ → ℚ) (hc : cosf 0 = 1)
    (hs : sinf 0 = 0) :
    (process default_config cosf sinf scenario_reading).raw_scan =
      [⟨0, -(1/2), -180, 1/2⟩] ∧
    (process default_config cosf sinf scenario_reading).valid_paths =
      [0, 1, 2, 3, 4, 5, 6, 7, 8] ∧
    (process default_config cosf sinf scenario_reading).lidar_string =
      "The safe movement directions are: \x7b\x27turn left\x27, \x27move forwards\x27, \x27turn right\x27, \x27stand still\x27\x7d. " := by
  unfold process
  rw [transform_scenario cosf sinf hc hs]
  exact ⟨by decide, by decide, by decide⟩

/-- Witness for C6 with the exact trigonometric values at degree argument 0. -/
theorem claim6_witness :
    (process default_config cos_stub sin_stub scenario_reading).raw_scan =
      [⟨0, -(1/2), -180, 1/2⟩] ∧
    (process default_config cos_stub sin_stub scenario_reading).valid_paths =
      [0, 1, 2, 3, 4, 5, 6, 7, 8] ∧
    (process default_config cos_stub sin_stub scenario_reading).lidar_string =
      "The safe movement directions are: \x7b\x27turn left\x27, \x27move forwards\x27, \x27turn right\x27, \x27stand still\x27\x7d. " :=
  claim6_scenario cos_stub sin_stub rfl rfl

/-- A boolean any over a list is invariant under permutation. -/
theorem perm_any {α : Type} {l l' : List α} (h : l.Perm l') (f : α → Bool) :
    l.any f = l'.any f := by
  cases hb : l'.any f with
  | true =>
      rcases List.any_eq_true.mp hb with ⟨x, hx, hf⟩
      exact List.any_eq_true.mpr ⟨x, h.mem_iff.mpr hx, hf⟩
  | false =>
      cases ha : l.any f with
      | false => rfl
      | true =>
          rcases List.any_eq_true.mp ha with ⟨x, hx, hf⟩
          have := List.any_eq_true.mpr ⟨x, h.mem_iff.mp hx, hf⟩
          rw [this] at hb
          exact hb

/-- Pruning is invariant under permutation of the transformed points. -/
theorem prune_paths_perm (hw : ℚ) (S : List Nat) {pts pts' : List TPoint}
    (h : pts.Perm pts') :
    prune_paths hw S pts = prune_paths hw S pts' := by
  rw [prune_paths_eq_filter, prune_paths_eq_filter]
  congr 1
  funext c
  rw [perm_any h]

/-- C7: for every two orderings of the same set of transformed points, the
pruner and the classifier produce identical valid paths and identical
movement strings. -/
theorem claim7_order_independence (cfg : Config) (pts pts' : List TPoint)
    (h : pts.Perm pts') :
    (∀ hw S, prune_paths hw S pts = prune_paths hw S pts') ∧
    (process_points cfg pts).valid_paths =
      (process_points cfg pts').valid_paths ∧
    (process_points cfg pts).lidar_string =
      (process_points cfg pts').lidar_string := by
  have hvp : (process_points cfg pts).valid_paths =
      (process_points cfg pts').valid_paths := by
    rw [(process_points_components cfg pts).1,
      (process_points_components cfg pts').1]
    have hlen := h.length_eq
    by_cases he : pts.isEmpty
    · have he' : pts'.isEmpty := by
        rw [List.isEmpty_iff_length_eq_zero] at he ⊢
        omega
      rw [if_pos he, if_pos he']
    · have he' : ¬ pts'.isEmpty = true := by
        rw [List.isEmpty_iff_length_eq_zero] at he ⊢
        omega
      rw [if_neg he, if_neg he']
      exact prune_paths_perm _ _
        ((List.perm_insertionSort _ pts).trans
          (h.trans (List.perm_insertionSort _ pts').symm))
  refine ⟨fun hw S => prune_paths_perm hw S h, hvp, ?_⟩
  rw [(process_points_components cfg pts).2.1,
    (process_points_components cfg pts').2.1, hvp]

/-- Witness for C7 on a two-point batch and its reversal. -/
theorem claim7_witness :
    (∀ hw S, prune_paths hw S [⟨0, 1, 0, 1⟩, ⟨1, 0, -90, 1⟩] =
      prune_paths hw S [⟨1, 0, -90, 1⟩, ⟨0, 1, 0, 1⟩]) ∧
    (process_points default_config
        [⟨0, 1, 0, 1⟩, ⟨1, 0, -90, 1⟩]).valid_paths =
      (process_points default_config
        [⟨1, 0, -90, 1⟩, ⟨0, 1, 0, 1⟩]).valid_paths ∧
    (process_points default_config
        [⟨0, 1, 0, 1⟩, ⟨1, 0, -90, 1⟩]).lidar_string =
      (process_points default_config
        [⟨1, 0, -90, 1⟩, ⟨0, 1, 0, 1⟩]).lidar_string :=
  claim7_order_independence default_config _ _
    (List.Perm.swap (⟨1, 0, -90, 1⟩ : TPoint) ⟨0, 1, 0, 1⟩ [])

/-- A reading that is too far away, or whose robot-frame angle falls in a
blanked range (both endpoints inclusive), is discarded by the transform. -/
theorem transform_reading_none (cfg : Config) (cosf sinf : ℚ → ℚ)
    (r : ℚ × ℚ)
    (h : cfg.max_relevant_distance < r.2 ∨
      ∃ b ∈ cfg.angles_blanked,
        b.1 ≤ robot_angle cfg r.1 ∧ robot_angle cfg r.1 ≤ b.2) :
    transform_reading cfg cosf sinf r = none := by
  unfold transform_reading
  rcases h with hfar | ⟨b, hb, h1, h2⟩
  · rw [if_pos hfar]
  · by_cases hfar : r.2 > cfg.max_relevant_distance
    · rw [if_pos hfar]
    · rw [if_neg hfar, if_pos]
      exact List.any_eq_true.mpr ⟨b, hb, by simp [h1, h2]⟩

/-- C8: adding a reading that the transformer discards — distance beyond
`max_relevant_distance`, or robot-frame angle inside a blanked range
(inclusive at both endpoints) — anywhere in the batch leaves the published
valid paths and movement string unchanged. -/
theorem claim8_discarded_no_influence (cfg : Config) (cosf sinf : ℚ → ℚ)
    (l1 l2 : List (ℚ × ℚ)) (r : ℚ × ℚ)
    (h : cfg.max_relevant_distance < r.2 ∨
      ∃ b ∈ cfg.angles_blanked,
        b.1 ≤ robot_angle cfg r.1 ∧ robot_angle cfg r.1 ≤ b.2) :
    (process cfg cosf sinf (l1 ++ r :: l2)).valid_paths =
      (process cfg cosf sinf (l1 ++ l2)).valid_paths ∧
    (process cfg cosf sinf (l1 ++ r :: l2)).lidar_string =
      (process cfg cosf sinf (l1 ++ l2)).lidar_string := by
  have heq : process cfg cosf sinf (l1 ++ r :: l2) =
      process cfg cosf sinf (l1 ++ l2) := by
    unfold process
    congr 1
    unfold transform_coordinates
    rw [List.filterMap_append, List.filterMap_append,
      List.filterMap_cons_none (transform_reading_none cfg cosf sinf r h)]
  exact ⟨congrArg Snapshot.valid_paths heq,
    congrArg Snapshot.lidar_string heq⟩

/-- Witness for C8: a reading at exactly the inclusive endpoint (robot-frame
angle 10) of the blanked range [-10, 10] has no influence. -/
theorem claim8_witness :
    (process blanked_config zero_fun zero_fun
        [(180, 1/2), (10, 1/2)]).valid_paths =
      (process blanked_config zero_fun zero_fun [(180, 1/2)]).valid_paths ∧
    (process blanked_config zero_fun zero_fun
        [(180, 1/2), (10, 1/2)]).lidar_string =
      (process blanked_config zero_fun zero_fun [(180, 1/2)]).lidar_string :=
  claim8_discarded_no_influence blanked_config zero_fun zero_fun
    [(180, 1/2)] [] (10, 1/2) (Or.inr ⟨(-10, 10), by decide, by decide⟩)

/-- Every corridor starts at the origin: its first sample point is (0, 0). -/
theorem pp_head_origin : ∀ c, c < 10 → (pp c).head? = some (0, 0) := by
  intro c hc
  interval_cases c <;> rfl

/-- The origin is among the sample points of every corridor. -/
theorem origin_mem_pp : ∀ c, c < 10 → (0, 0) ∈ pp c := by
  intro c hc
  interval_cases c <;> decide

/-- Every id in the starting candidate set is a corridor id below 10. -/
theorem start_paths_lt (cfg : Config) : ∀ c ∈ start_paths cfg, c < 10 := by
  unfold start_paths
  split <;> decide

/-- C10: every corridor has the origin as its first sample point, so one
transformed point strictly closer to the origin than `half_width_robot`
removes every corridor: the published valid paths are empty and the string is
the surrounded message. -/
theorem claim10_origin_blocks_all :
    (∀ c, c < 10 → (pp c).head? = some (0, 0)) ∧
    ∀ (cfg : Config) (cosf sinf : ℚ → ℚ) (data : List (ℚ × ℚ)) (p : TPoint),
      p ∈ transform_coordinates cfg cosf sinf data →
      Real.sqrt ((p.x : ℝ) ^ 2 + (p.y : ℝ) ^ 2) <
        (cfg.half_width_robot : ℝ) →
      (process cfg cosf sinf data).valid_paths = [] ∧
      (process cfg cosf sinf data).lidar_string = surrounded_string := by
  refine ⟨pp_head_origin, ?_⟩
  intro cfg cosf sinf data p hp hlt
  have hsq : 0 < cfg.half_width_robot ∧
      p.x * p.x + p.y * p.y < cfg.half_width_robot * cfg.half_width_robot :=
    (sq_sum_lt_iff_sqrt_lt p.x p.y cfg.half_width_robot).mpr hlt
  have hviol : ∀ c, c < 10 →
      violates_path cfg.half_width_robot p.x p.y (pp c) = true := by
    intro c hc
    refine List.any_eq_true.mpr ⟨(0, 0), origin_mem_pp c hc, ?_⟩
    simp only [decide_eq_true_eq]
    constructor
    · exact hsq.1
    · simpa using hsq.2
  have harr : ¬ (transform_coordinates cfg cosf sinf data).isEmpty = true := by
    rw [List.isEmpty_iff]
    exact List.ne_nil_of_mem hp
  have hvp : (process cfg cosf sinf data).valid_paths = [] := by
    rw [process, (process_points_components cfg _).1, if_neg harr,
      prune_paths_eq_filter]
    refine List.filter_eq_nil_iff.mpr ?_
    intro c hcs
    have hmem : p ∈ sort_by_angle (transform_coordinates cfg cosf sinf data) :=
      (List.perm_insertionSort _ _).mem_iff.mpr hp
    have : (sort_by_angle (transform_coordinates cfg cosf sinf data)).any
        (fun q => violates_path cfg.half_width_robot q.x q.y (pp c)) = true :=
      List.any_eq_true.mpr ⟨p, hmem, hviol c (start_paths_lt cfg c hcs)⟩
    simp [this]
  refine ⟨hvp, ?_⟩
  rw [process, (process_points_components cfg _).2.1, ← process, hvp]
  rfl

/-- Witness for C10: a scan point 1 cm behind the robot center empties the
valid paths. -/
theorem claim10_witness :
    ((∀ c, c < 10 → (pp c).head? = some (0, 0)) ∧
      (process default_config cos_stub sin_stub
          origin_reading).valid_paths = [] ∧
      (process default_config cos_stub sin_stub
          origin_reading).lidar_string = surrounded_string) :=
  ⟨claim10_origin_blocks_all.1,
   claim10_origin_blocks_all.2 default_config cos_stub sin_stub
     origin_reading origin_point (by decide)
     (by
       have h0 : ((origin_point.x : ℝ)) = 0 := by norm_num [origin_point]
       have h1 : ((origin_point.y : ℝ)) = -(1/100) := by
         norm_num [origin_point]
       have h2 : ((default_config.half_width_robot : ℚ) : ℝ) = 1/5 := by
         norm_num [default_config]
       rw [h0, h1, h2, Real.sqrt_lt' (by norm_num)]
       norm_num)⟩

end

end RPLidar
